import Mathlib

/-!
valorantgo-api: catalog filters, dev auth handler, loadout store

Shallow embedding of `src/app.go`.

* Go `string` values are Lean `String`s; `len(s)` is the UTF-8 byte length
  `String.utf8ByteSize`, `==` / `!=` is equality of strings.
* Go `int` values are `Int` (only compared, never added in this program).
* A Go result pair `(value, error)` is an `Except Error value`.
* `strings.ToLower` belongs to the Go standard library, not to this program: the
  handlers take it as the parameter `toLower`.  `asciiToLower` is its restriction
  to ASCII text, used to evaluate the handlers on concrete requests.
* `strings.HasPrefix` and `strings.Contains` are the prefix and substring tests
  on the character sequence.
-/

namespace Valorant

/-! ## Data model -/

/-- Go `error` values produced by this program. -/
inductive Error where
  /-- The value `auth.ErrUnauthenticated`. -/
  | ErrUnauthenticated : Error
  /-- An error reported by the `sqldb` driver. -/
  | dbError : String → Error
  /-- The value of `fmt.Errorf(prefix + "%v", err)`. -/
  | wrapped : String → Error → Error
  deriving DecidableEq, Repr

instance exceptDecidableEq {ε α : Type} [DecidableEq ε] [DecidableEq α] :
    DecidableEq (Except ε α)
  | .ok a, .ok b =>
    if h : a = b then isTrue (by rw [h]) else isFalse (fun hab => h (Except.ok.inj hab))
  | .error a, .error b =>
    if h : a = b then isTrue (by rw [h]) else isFalse (fun hab => h (Except.error.inj hab))
  | .ok _, .error _ => isFalse (fun hab => Except.noConfusion hab)
  | .error _, .ok _ => isFalse (fun hab => Except.noConfusion hab)

/-- The struct `Agent`. -/
structure Agent where
  ID : String
  Name : String
  Role : String
  Description : String
  Abilities : List String
  ImageURL : String
  deriving DecidableEq, Repr

/-- The struct `Weapon`; the field `Type` is written `Type_`. -/
structure Weapon where
  ID : String
  Name : String
  Type_ : String
  Cost : Int
  Damage : Int
  Accuracy : Int
  ImageURL : String
  deriving DecidableEq, Repr

/-- The package variable `agents`. -/
def agents : List Agent :=
  [ { ID := "jett", Name := "Jett", Role := "Duelist",
      Description := "Jett's agile and evasive fighting style lets her take risks no one else can.",
      Abilities := ["Updraft", "Tailwind", "Cloudburst", "Blade Storm"],
      ImageURL := "https://images.contentstack.io/v3/assets/bltb6530b271fddd0b1/blt5ebf40a2dfaffb4e/5f21297f5f0cb0629a5bfcb9/V_AGENTS_587x900_Jett.png" },
    { ID := "sova", Name := "Sova", Role := "Initiator",
      Description := "Sova tracks, finds, and eliminates enemies with ruthless efficiency.",
      Abilities := ["Owl Drone", "Shock Bolt", "Recon Bolt", "Hunter's Fury"],
      ImageURL := "https://images.contentstack.io/v3/assets/bltb6530b271fddd0b1/blt181ad63adc9976a4/5f2129b2e0999b628bc8eb4e/V_AGENTS_587x900_Sova.png" },
    { ID := "sage", Name := "Sage", Role := "Sentinel",
      Description := "Sage creates safety for herself and her team wherever she goes.",
      Abilities := ["Barrier Orb", "Slow Orb", "Healing Orb", "Resurrection"],
      ImageURL := "https://images.contentstack.io/v3/assets/bltb6530b271fddd0b1/blt2a1c7b18aa5b1a6b/5f21297f078a8b626859f4a8/V_AGENTS_587x900_Sage.png" },
    { ID := "omen", Name := "Omen", Role := "Controller",
      Description := "Omen hunts in the shadows. He renders enemies blind, teleports across the field.",
      Abilities := ["Shrouded Step", "Paranoia", "Dark Cover", "From the Shadows"],
      ImageURL := "https://images.contentstack.io/v3/assets/bltb6530b271fddd0b1/blt94dd043bce7fc9f2/5f21297f2ef66062fb6aa96c/V_AGENTS_587x900_Omen.png" } ]

/-- The package variable `weapons`. -/
def weapons : List Weapon :=
  [ { ID := "classic", Name := "Classic", Type_ := "Sidearm", Cost := 0, Damage := 78, Accuracy := 85, ImageURL := "" },
    { ID := "sheriff", Name := "Sheriff", Type_ := "Sidearm", Cost := 800, Damage := 159, Accuracy := 79, ImageURL := "" },
    { ID := "spectre", Name := "Spectre", Type_ := "Primary", Cost := 1600, Damage := 78, Accuracy := 74, ImageURL := "" },
    { ID := "vandal", Name := "Vandal", Type_ := "Primary", Cost := 2900, Damage := 160, Accuracy := 73, ImageURL := "" },
    { ID := "phantom", Name := "Phantom", Type_ := "Primary", Cost := 2900, Damage := 156, Accuracy := 79, ImageURL := "" },
    { ID := "operator", Name := "Operator", Type_ := "Primary", Cost := 4700, Damage := 255, Accuracy := 76, ImageURL := "" } ]

/-! ## Go standard library: `strings` -/

/-- Go `strings.HasPrefix(s, p)`. -/
def hasPrefix (s p : String) : Bool :=
  p.data.isPrefixOf s.data

/-- Does `sub` start at some position of `s`?  The scan of `strings.Contains`. -/
def containsAt (sub : List Char) : List Char → Bool
  | [] => sub.isPrefixOf []
  | c :: cs => sub.isPrefixOf (c :: cs) || containsAt sub cs

/-- Go `strings.Contains(s, sub)`. -/
def contains (s sub : String) : Bool :=
  containsAt sub.data s.data

/-- Go `strings.ToLower` on ASCII text: `A`..`Z` become `a`..`z`. -/
def asciiToLower (s : String) : String :=
  ⟨s.data.map Char.toLower⟩

/-! ## Auth handler -/

/-- The three results of `AuthHandler`: the `auth.UID`, the `role` entry of the
`*auth.Data` (`none` for a `nil` pointer) and the `error` (`none` for `nil`). -/
structure AuthResult where
  uid : String
  data : Option String
  err : Option Error
  deriving DecidableEq, Repr

/-- The function `AuthHandler`. -/
def AuthHandler (token : String) : AuthResult :=
  if hasPrefix token "dev-" && decide (token.utf8ByteSize > 4) then
    { uid := token, data := some "dev", err := none }
  else
    { uid := "", data := none, err := some Error.ErrUnauthenticated }

/-! ## Catalog handlers -/

/-- The struct `GetAgentsParams`. -/
structure GetAgentsParams where
  Role : String
  Search : String
  deriving DecidableEq, Repr

/-- The struct `GetAgentsResponse`. -/
structure GetAgentsResponse where
  Agents : List Agent
  Total : Int
  deriving DecidableEq, Repr

/-- One iteration of the loop of `GetAgents`: `filtered` after visiting `a`. -/
def getAgentsStep (toLower : String → String) (params : GetAgentsParams)
    (filtered : List Agent) (a : Agent) : List Agent :=
  if params.Role != "" && a.Role != params.Role then
    filtered
  else if params.Search != "" &&
      (!contains (toLower a.Name) (toLower params.Search) &&
        !contains (toLower a.Description) (toLower params.Search)) then
    filtered
  else
    filtered ++ [a]

/-- The function `GetAgents`. -/
def GetAgents (toLower : String → String) (params : GetAgentsParams) :
    Except Error GetAgentsResponse :=
  let filtered := agents.foldl (getAgentsStep toLower params) []
  .ok { Agents := filtered, Total := filtered.length }

/-- The struct `GetWeaponsParams`; the field `Type` is written `Type_`. -/
structure GetWeaponsParams where
  Type_ : String
  MaxCost : Int
  Search : String
  deriving DecidableEq, Repr

/-- The struct `GetWeaponsResponse`. -/
structure GetWeaponsResponse where
  Weapons : List Weapon
  Total : Int
  deriving DecidableEq, Repr

/-- One iteration of the loop of `GetWeapons`: `filtered` after visiting `w`. -/
def getWeaponsStep (toLower : String → String) (params : GetWeaponsParams)
    (filtered : List Weapon) (w : Weapon) : List Weapon :=
  if params.Type_ != "" && w.Type_ != params.Type_ then
    filtered
  else if decide (params.MaxCost > 0) && decide (w.Cost > params.MaxCost) then
    filtered
  else if params.Search != "" && !contains (toLower w.Name) (toLower params.Search) then
    filtered
  else
    filtered ++ [w]

/-- The function `GetWeapons`. -/
def GetWeapons (toLower : String → String) (params : GetWeaponsParams) :
    Except Error GetWeaponsResponse :=
  let filtered := weapons.foldl (getWeaponsStep toLower params) []
  .ok { Weapons := filtered, Total := filtered.length }

/-- The agent predicate in the words of the specification: the role filter is empty
or equals the role, and the search text is empty or its lower-casing occurs in the
lower-cased name or description. -/
def agentMatches (toLower : String → String) (role search : String) (a : Agent) : Prop :=
  (role = "" ∨ a.Role = role) ∧
  (search = "" ∨ (toLower search).data <:+: (toLower a.Name).data ∨
    (toLower search).data <:+: (toLower a.Description).data)

/-- The weapon predicate in the words of the specification. -/
def weaponMatches (toLower : String → String) (type : String) (maxCost : Int)
    (search : String) (w : Weapon) : Prop :=
  (type = "" ∨ w.Type_ = type) ∧
  (maxCost ≤ 0 ∨ w.Cost ≤ maxCost) ∧
  (search = "" ∨ (toLower search).data <:+: (toLower w.Name).data)

instance agentMatchesDecidable (toLower : String → String) (role search : String)
    (a : Agent) : Decidable (agentMatches toLower role search a) := by
  unfold agentMatches
  infer_instance

instance weaponMatchesDecidable (toLower : String → String) (type : String)
    (maxCost : Int) (search : String) (w : Weapon) :
    Decidable (weaponMatches toLower type maxCost search w) := by
  unfold weaponMatches
  infer_instance

/-! ## The table `loadouts`

The Postgres database behind `db` is modelled by the state `DB`.

* `loadouts` is the table in physical order.  `ORDER BY created DESC` names no
  tie-break, so rows with equal `created` come back in the order the scan meets
  them; as the physical order is an arbitrary list, every result the statement
  permits is the result on some physical order.
* `primary_weapon` and `sidearm` are nullable (`Option`).  `user_id` and `agent`
  are `NOT NULL`.  `created` is filled by `DEFAULT NOW()`: the only `INSERT` of the
  program never names the column.
* An argument of Go type `string` is bound as a text value, the empty string
  included; only a `nil` argument is bound as `NULL`.
* `reachable = false` is a database that fails every statement at once: `db.Query`
  and `db.QueryRow(...).Scan` return the error.
* `readFault` is what goes wrong while the rows of the `SELECT` are read, after
  `db.Query` has returned without error: nothing, a stream that breaks after `n` rows
  (`rows.Next()` then returns `false` and the error is only in `rows.Err()`), or a
  `rows.Scan` that fails on the row at index `n`.
-/

/-- A row of the table `loadouts`. -/
structure Row where
  id : Int
  user_id : String
  agent : String
  primary_weapon : Option String
  sidearm : Option String
  created : Nat
  deriving DecidableEq, Repr

/-- What goes wrong while the rows of a `SELECT` are read. -/
inductive ReadFault where
  /-- Every row is delivered and scanned. -/
  | none : ReadFault
  /-- The stream breaks after `n` rows: the next `rows.Next()` returns `false` and the
  error is kept for `rows.Err()`.  With `n = 0` this is a statement whose failure at
  execution shows only in `rows.Err()`. -/
  | streamBreaks : Nat → ReadFault
  /-- The call `rows.Scan` on the row at index `n` returns an error. -/
  | scanFails : Nat → ReadFault
  deriving DecidableEq, Repr

/-- The database `valorant`: the table, the sequence behind `id SERIAL`, the value of
`NOW()`, whether statements succeed, and the fault met while rows are read. -/
structure DB where
  reachable : Bool
  loadouts : List Row
  nextId : Int
  now : Nat
  readFault : ReadFault
  deriving DecidableEq, Repr

/-- The struct `Loadout`; `Created` is the timestamp as a number. -/
structure Loadout where
  ID : Int
  UserID : String
  Agent : String
  Primary : String
  Sidearm : String
  Created : Nat
  deriving DecidableEq, Repr

/-- The error of a statement on an unreachable database. -/
def unreachableErr : Error :=
  Error.dbError "connection refused"

/-- The error kept in `rows.Err()` when the stream of rows breaks. -/
def streamErr : Error :=
  Error.dbError "unexpected EOF"

/-- The error of a failed `rows.Scan`. -/
def scanErr : Error :=
  Error.dbError "can't scan into dest"

/-- The statement `SELECT COUNT(*) FROM loadouts`, scanned into an `int`. -/
def countLoadouts (db : DB) : Except Error Int :=
  if db.reachable then .ok (db.loadouts.length : Int) else .error unreachableErr

/-- The statement `INSERT INTO loadouts (user_id, agent, primary_weapon, sidearm)
VALUES ($1, $2, $3, $4) RETURNING id` with four Go `string` arguments: the new
database and the scanned `id`. -/
def insertLoadout (db : DB) (user_id agent primary_weapon sidearm : String) :
    DB × Except Error Int :=
  if db.reachable then
    ({ db with
        loadouts := db.loadouts ++
          [{ id := db.nextId, user_id := user_id, agent := agent,
             primary_weapon := some primary_weapon, sidearm := some sidearm,
             created := db.now }],
        nextId := db.nextId + 1 },
      .ok db.nextId)
  else
    (db, .error unreachableErr)

/-- The order of `ORDER BY created DESC`: `a` may come before `b`. -/
def createdDesc (a b : Row) : Prop :=
  b.created ≤ a.created

instance createdDescDecidable : DecidableRel createdDesc :=
  fun a b => inferInstanceAs (Decidable (b.created ≤ a.created))

instance createdDescIsTotal : IsTotal Row createdDesc :=
  ⟨fun a b => Nat.le_total b.created a.created⟩

instance createdDescIsTrans : IsTrans Row createdDesc :=
  ⟨fun _ _ _ hab hbc => Nat.le_trans hbc hab⟩

/-- The columns `id, agent, primary_weapon, sidearm, created` of a selected row. -/
structure SelectedRow where
  id : Int
  agent : String
  primary_weapon : Option String
  sidearm : Option String
  created : Nat
  deriving DecidableEq, Repr

/-- The select list `id, agent, primary_weapon, sidearm, created`. -/
def Row.selected (r : Row) : SelectedRow :=
  { id := r.id, agent := r.agent, primary_weapon := r.primary_weapon,
    sidearm := r.sidearm, created := r.created }

/-- The rows `FROM loadouts WHERE user_id = $1 ORDER BY created DESC`, before the
select list is applied. -/
def selectRows (db : DB) (userID : String) : List Row :=
  (db.loadouts.filter (fun r => decide (r.user_id = userID))).insertionSort createdDesc

/-- The value `*sqldb.Rows` as the loop sees it: for each `rows.Next()` that returns
`true` the outcome of the `rows.Scan` on that row, and the value of `rows.Err()`
once `rows.Next()` has returned `false`. -/
structure Rows where
  items : List (Except Error SelectedRow)
  err : Option Error
  deriving DecidableEq, Repr

/-- The rows of a result as `readFault` lets them through. -/
def deliver (all : List SelectedRow) : ReadFault → Rows
  | ReadFault.none => { items := all.map Except.ok, err := none }
  | ReadFault.streamBreaks n => { items := (all.take n).map Except.ok, err := some streamErr }
  | ReadFault.scanFails n =>
    { items := (all.take n).map Except.ok ++
        (match all.drop n with
         | [] => []
         | _ :: rest => Except.error scanErr :: rest.map Except.ok),
      err := none }

/-- The call `db.Query` with the statement `SELECT id, agent, primary_weapon, sidearm,
created FROM loadouts WHERE user_id = $1 ORDER BY created DESC`. -/
def queryLoadouts (db : DB) (userID : String) : Except Error Rows :=
  if db.reachable then
    .ok (deliver ((selectRows db userID).map Row.selected) db.readFault)
  else .error unreachableErr

/-! ## Stats and loadout handlers -/

/-- The struct `StatsResponse`. -/
structure StatsResponse where
  TotalAgents : Int
  TotalWeapons : Int
  TotalLoadouts : Int
  PopularAgent : String
  deriving DecidableEq, Repr

/-- The function `GetStats`. -/
def GetStats (db : DB) : Except Error StatsResponse :=
  let total : Int :=
    match countLoadouts db with
    | .error _ => 0
    | .ok n => n
  .ok { TotalAgents := agents.length, TotalWeapons := weapons.length,
        TotalLoadouts := total, PopularAgent := "Jett" }

/-- The struct `CreateLoadoutRequest`. -/
structure CreateLoadoutRequest where
  Agent : String
  Primary : String
  Sidearm : String
  deriving DecidableEq, Repr

/-- The struct `CreateLoadoutResponse`. -/
structure CreateLoadoutResponse where
  ID : Int
  Message : String
  deriving DecidableEq, Repr

/-- The function `CreateLoadout`; `userID` is the value of `auth.UserID()`.  Returns
the database after the call and the result. -/
def CreateLoadout (db : DB) (userID : String) (req : CreateLoadoutRequest) :
    DB × Except Error CreateLoadoutResponse :=
  match insertLoadout db userID req.Agent req.Primary req.Sidearm with
  | (db1, .error err) => (db1, .error (Error.wrapped "failed to create loadout: " err))
  | (db1, .ok id) => (db1, .ok { ID := id, Message := "Loadout saved successfully" })

/-- The body of the `rows.Next()` loop of `GetUserLoadouts` up to the `append`: a zero
`Loadout`, the scan of `id`, `agent` and `created`, the assignment of `UserID`, and the
two `nil` tests on the scanned `*string` values. -/
def scanLoadout (userID : String) (r : SelectedRow) : Loadout :=
  let l : Loadout :=
    { ID := r.id, UserID := "", Agent := r.agent, Primary := "", Sidearm := "",
      Created := r.created }
  let l := { l with UserID := userID }
  let l := match r.primary_weapon with
    | some p => { l with Primary := p }
    | none => l
  match r.sidearm with
  | some s => { l with Sidearm := s }
  | none => l

/-- The struct `GetLoadoutsResponse`. -/
structure GetLoadoutsResponse where
  Loadouts : List Loadout
  Total : Int
  deriving DecidableEq, Repr

/-- The loop `for rows.Next() { ... }` of `GetUserLoadouts` on the rows still to come,
with `out` as built so far: a failed `rows.Scan` returns its error, a scanned row is
appended, and the loop ends when `rows.Next()` returns `false`. -/
def scanLoop (userID : String) :
    List (Except Error SelectedRow) → List Loadout → Except Error (List Loadout)
  | [], out => .ok out
  | .error err :: _, _ => .error err
  | .ok r :: rest, out => scanLoop userID rest (out ++ [scanLoadout userID r])

/-- The function `GetUserLoadouts`; `userID` is the value of `auth.UserID()`.  The
function never reads `rows.Err()`, so `rows.err` is not used. -/
def GetUserLoadouts (db : DB) (userID : String) : Except Error GetLoadoutsResponse :=
  match queryLoadouts db userID with
  | .error err => .error (Error.wrapped "failed to get loadouts: " err)
  | .ok rows =>
    match scanLoop userID rows.items [] with
    | .error err => .error err
    | .ok out => .ok { Loadouts := out, Total := out.length }

/-- The ordering of the specification: creation time descending, equal creation
times in descending id order. -/
def createdDescIdDesc (a b : Loadout) : Prop :=
  b.Created < a.Created ∨ (b.Created = a.Created ∧ b.ID < a.ID)

instance createdDescIdDescDecidable : DecidableRel createdDescIdDesc :=
  fun a b => inferInstanceAs
    (Decidable (b.Created < a.Created ∨ (b.Created = a.Created ∧ b.ID < a.ID)))

/-- An empty, reachable database whose sequence starts at 1. -/
def emptyDB (now : Nat) : DB :=
  { reachable := true, loadouts := [], nextId := 1, now := now,
    readFault := ReadFault.none }

/-! ## Example stores -/

/-- A stored row whose `primary_weapon` is `NULL`. -/
def rowNull : Row :=
  ⟨1, "dev-alice", "jett", none, some "classic", 100⟩

/-- The same row with the empty string in `primary_weapon`. -/
def rowEmpty : Row :=
  ⟨1, "dev-alice", "jett", some "", some "classic", 100⟩

/-- A store with rows of two users. -/
def twoUserDB : DB :=
  { reachable := true,
    loadouts :=
      [⟨1, "dev-alice", "jett", some "vandal", some "classic", 100⟩,
       ⟨2, "dev-bob", "sova", some "phantom", none, 150⟩,
       ⟨3, "dev-alice", "sage", none, some "sheriff", 200⟩],
    nextId := 4, now := 300, readFault := ReadFault.none }

/-- The store `twoUserDB` read over a connection that breaks after the first row. -/
def brokenStreamDB : DB :=
  { twoUserDB with readFault := ReadFault.streamBreaks 1 }

/-- The store `twoUserDB` when the `rows.Scan` of the second row fails. -/
def scanFaultDB : DB :=
  { twoUserDB with readFault := ReadFault.scanFails 1 }

/-- The store after two `CreateLoadout` calls of one user at the same value of
`NOW()`. -/
def tieDB : DB :=
  (CreateLoadout (CreateLoadout (emptyDB 100) "dev-alice" ⟨"jett", "vandal", "classic"⟩).1
    "dev-alice" ⟨"sova", "phantom", "sheriff"⟩).1

/-- The rows of `tieDB` in the opposite physical order. -/
def tieDBSwapped : DB :=
  { tieDB with loadouts := tieDB.loadouts.reverse }

/-! ## Lemmas on the `strings` functions -/

theorem containsAt_iff (sub s : List Char) : containsAt sub s = true ↔ sub <:+: s := by
  induction s with
  | nil =>
    simp [containsAt, List.isPrefixOf_iff_prefix]
  | cons c cs ih =>
    simp only [containsAt, Bool.or_eq_true, ih, List.isPrefixOf_iff_prefix]
    rw [List.infix_cons_iff]

theorem contains_iff (s sub : String) : contains s sub = true ↔ sub.data <:+: s.data :=
  containsAt_iff sub.data s.data

theorem hasPrefix_iff (s p : String) :
    hasPrefix s p = true ↔ ∃ rest, s.data = p.data ++ rest := by
  unfold hasPrefix
  rw [List.isPrefixOf_iff_prefix]
  constructor
  · rintro ⟨t, ht⟩
    exact ⟨t, ht.symm⟩
  · rintro ⟨t, ht⟩
    exact ⟨t, ht.symm⟩

theorem utf8Len_pos_iff (cs : List Char) : 0 < String.utf8Len cs ↔ cs ≠ [] := by
  cases cs with
  | nil => simp
  | cons c cs =>
    have := Char.utf8Size_pos c
    simp [String.utf8Len_cons]
    omega

/-! ## Loops as filters -/

theorem foldl_keep_eq_filter {α : Type} (step : List α → α → List α) (keep : α → Bool)
    (hstep : ∀ acc a, step acc a = if keep a then acc ++ [a] else acc) (l acc : List α) :
    l.foldl step acc = acc ++ l.filter keep := by
  induction l generalizing acc with
  | nil => simp
  | cons a l ih =>
    rw [List.foldl_cons, ih, hstep]
    by_cases h : keep a = true
    · simp [h]
    · simp [h]

theorem getAgentsStep_eq (toLower : String → String) (params : GetAgentsParams)
    (acc : List Agent) (a : Agent) :
    getAgentsStep toLower params acc a =
      if decide (agentMatches toLower params.Role params.Search a) then acc ++ [a]
      else acc := by
  unfold getAgentsStep agentMatches
  by_cases hr : params.Role = "" <;> by_cases hr2 : a.Role = params.Role <;>
    by_cases hs : params.Search = "" <;>
    by_cases hn : (toLower params.Search).data <:+: (toLower a.Name).data <;>
    by_cases hd : (toLower params.Search).data <:+: (toLower a.Description).data <;>
    simp [hr, hr2, hs, hn, hd, contains_iff]

theorem getWeaponsStep_eq (toLower : String → String) (params : GetWeaponsParams)
    (acc : List Weapon) (w : Weapon) :
    getWeaponsStep toLower params acc w =
      if decide (weaponMatches toLower params.Type_ params.MaxCost params.Search w)
      then acc ++ [w] else acc := by
  unfold getWeaponsStep weaponMatches
  have hgt : ∀ x y : Int, decide (x > y) = !decide (x ≤ y) := fun x y => by
    by_cases h : x ≤ y
    · have h2 : ¬ x > y := by omega
      simp [h, h2]
    · have h2 : x > y := by omega
      simp [h, h2]
  simp only [hgt]
  by_cases ht : params.Type_ = "" <;> by_cases ht2 : w.Type_ = params.Type_ <;>
    by_cases hm : params.MaxCost ≤ 0 <;> by_cases hc : w.Cost ≤ params.MaxCost <;>
    by_cases hs : params.Search = "" <;>
    by_cases hn : (toLower params.Search).data <:+: (toLower w.Name).data <;>
    simp [ht, ht2, hm, hc, hs, hn, contains_iff]

theorem agents_nodup : agents.Nodup := by decide

theorem weapons_nodup : weapons.Nodup := by decide

/-! ## Catalog handlers: theorems -/

theorem GetAgents_search_upper :
    GetAgents asciiToLower ⟨"", "SHADOWS"⟩ = .ok ⟨agents.drop 3, 1⟩ := by decide

theorem GetAgents_role_is_case_sensitive :
    GetAgents asciiToLower ⟨"duelist", ""⟩ = .ok ⟨[], 0⟩ ∧
    GetAgents asciiToLower ⟨"Duelist", ""⟩ = .ok ⟨agents.take 1, 1⟩ := by decide

theorem GetWeapons_primary_under_2900 :
    GetWeapons asciiToLower ⟨"Primary", 2900, "an"⟩ = .ok ⟨(weapons.drop 3).take 2, 2⟩ := by
  decide

/-- C1: for every role filter and search text `GetAgents` returns, without error,
exactly the agents of the catalog that satisfy the role predicate and the search
predicate, in catalog order and each at most once; with both filters empty the
result is the whole catalog. -/
theorem GetAgents_exact (toLower : String → String) (role search : String) :
    ∃ out : List Agent,
      GetAgents toLower ⟨role, search⟩ = .ok ⟨out, out.length⟩ ∧
      out = agents.filter (fun a => decide (agentMatches toLower role search a)) ∧
      (∀ a, a ∈ out ↔ a ∈ agents ∧ agentMatches toLower role search a) ∧
      out.Sublist agents ∧ out.Nodup ∧
      GetAgents toLower ⟨"", ""⟩ = .ok ⟨agents, 4⟩ := by
  have key : ∀ p : GetAgentsParams, agents.foldl (getAgentsStep toLower p) [] =
      agents.filter (fun a => decide (agentMatches toLower p.Role p.Search a)) := by
    intro p
    rw [foldl_keep_eq_filter _ _ (getAgentsStep_eq toLower p)]
    simp
  refine ⟨agents.filter (fun a => decide (agentMatches toLower role search a)),
    ?_, rfl, ?_, List.filter_sublist _, agents_nodup.filter _, ?_⟩
  · simp only [GetAgents, key]
  · intro a
    simp [List.mem_filter]
  · simp only [GetAgents, key]
    have hall : agents.filter (fun a => decide (agentMatches toLower "" "" a)) = agents := by
      rw [List.filter_eq_self]
      intro a _
      simp [agentMatches]
    rw [hall]
    rfl

/-- C2: for every type filter, `maxCost` and search text `GetWeapons` returns,
without error, exactly the weapons of the catalog, in catalog order, whose category
passes the type filter, whose cost passes the `maxCost` bound (no bound when
`maxCost ≤ 0`) and whose lower-cased name contains the lower-cased search text. -/
theorem GetWeapons_exact (toLower : String → String) (type : String) (maxCost : Int)
    (search : String) :
    ∃ out : List Weapon,
      GetWeapons toLower ⟨type, maxCost, search⟩ = .ok ⟨out, out.length⟩ ∧
      out = weapons.filter
        (fun w => decide (weaponMatches toLower type maxCost search w)) ∧
      (∀ w, w ∈ out ↔ w ∈ weapons ∧ weaponMatches toLower type maxCost search w) ∧
      out.Sublist weapons := by
  refine ⟨weapons.filter (fun w => decide (weaponMatches toLower type maxCost search w)),
    ?_, rfl, ?_, List.filter_sublist _⟩
  · simp only [GetWeapons]
    rw [foldl_keep_eq_filter _ _ (getWeaponsStep_eq toLower ⟨type, maxCost, search⟩)]
    simp
  · intro w
    simp [List.mem_filter]

/-- C4: for every `maxCost ≤ 0`, `GetWeapons` returns the same response (weapon list
and total) as with `MaxCost` left at its zero value and the same type filter and
search text. -/
theorem GetWeapons_nonpositive_maxCost (toLower : String → String) (type : String)
    (maxCost : Int) (search : String) (h : maxCost ≤ 0) :
    GetWeapons toLower ⟨type, maxCost, search⟩ = GetWeapons toLower ⟨type, 0, search⟩ := by
  have hstep : getWeaponsStep toLower ⟨type, maxCost, search⟩ =
      getWeaponsStep toLower ⟨type, 0, search⟩ := by
    funext acc w
    have h1 : ¬ maxCost > 0 := by omega
    simp [getWeaponsStep, h1]
  simp only [GetWeapons, hstep]

/-- Witness of C4 at `maxCost = -5`, type filter `Primary`, search text `an`. -/
theorem GetWeapons_nonpositive_maxCost_witness :
    (-5 : Int) ≤ 0 ∧
    GetWeapons asciiToLower ⟨"Primary", -5, "an"⟩ =
      GetWeapons asciiToLower ⟨"Primary", 0, "an"⟩ :=
  ⟨by decide, GetWeapons_nonpositive_maxCost asciiToLower "Primary" (-5) "an" (by decide)⟩

/-! ## Auth handler: theorem -/

/-- C3: `AuthHandler` succeeds exactly when the token is `dev-` followed by at least
one character (so its length exceeds 4); it then returns the token itself as the
user id, and otherwise the empty id with `ErrUnauthenticated`.  `dev-alice` is
accepted, `dev-` and `guest` are rejected. -/
theorem AuthHandler_spec (token : String) :
    (((∃ c rest, token.data = "dev-".data ++ c :: rest) ∧ token.length > 4 ∧
        AuthHandler token = ⟨token, some "dev", none⟩) ∨
      ((¬ ∃ c rest, token.data = "dev-".data ++ c :: rest) ∧
        AuthHandler token = ⟨"", none, some Error.ErrUnauthenticated⟩)) ∧
    AuthHandler "dev-alice" = ⟨"dev-alice", some "dev", none⟩ ∧
    AuthHandler "dev-" = ⟨"", none, some Error.ErrUnauthenticated⟩ ∧
    AuthHandler "guest" = ⟨"", none, some Error.ErrUnauthenticated⟩ := by
  have hcond : (hasPrefix token "dev-" && decide (token.utf8ByteSize > 4)) = true ↔
      ∃ c rest, token.data = "dev-".data ++ c :: rest := by
    rw [Bool.and_eq_true, hasPrefix_iff, decide_eq_true_iff]
    have hsz : token.utf8ByteSize = String.utf8Len token.data := rfl
    have h4 : String.utf8Len "dev-".data = 4 := by decide
    constructor
    · rintro ⟨⟨rest, hrest⟩, hlen⟩
      rw [hsz, hrest, String.utf8Len_append] at hlen
      have hpos : 0 < String.utf8Len rest := by omega
      rw [utf8Len_pos_iff] at hpos
      obtain ⟨c, cs, rfl⟩ := List.exists_cons_of_ne_nil hpos
      exact ⟨c, cs, hrest⟩
    · rintro ⟨c, rest, h⟩
      refine ⟨⟨c :: rest, h⟩, ?_⟩
      rw [hsz, h, String.utf8Len_append]
      have hpos := (utf8Len_pos_iff (c :: rest)).mpr (List.cons_ne_nil c rest)
      omega
  refine ⟨?_, by decide, by decide, by decide⟩
  by_cases hc : (hasPrefix token "dev-" && decide (token.utf8ByteSize > 4)) = true
  · left
    obtain ⟨c, rest, h⟩ := hcond.mp hc
    refine ⟨⟨c, rest, h⟩, ?_, ?_⟩
    · have hl : token.length = token.data.length := rfl
      rw [hl, h]
      simp
    · unfold AuthHandler
      simp [hc]
  · right
    refine ⟨fun hex => hc (hcond.mpr hex), ?_⟩
    unfold AuthHandler
    simp [hc]

/-! ## The table `loadouts`: lemmas -/

theorem selectRows_perm (db : DB) (u : String) :
    (selectRows db u).Perm (db.loadouts.filter (fun r => decide (r.user_id = u))) :=
  List.perm_insertionSort createdDesc _

theorem selectRows_sorted (db : DB) (u : String) :
    (selectRows db u).Pairwise createdDesc :=
  List.sorted_insertionSort createdDesc _

theorem scanLoop_ok_append (u : String) (l : List SelectedRow)
    (t : List (Except Error SelectedRow)) (acc : List Loadout) :
    scanLoop u (l.map Except.ok ++ t) acc = scanLoop u t (acc ++ l.map (scanLoadout u)) := by
  induction l generalizing acc with
  | nil => simp
  | cons r l ih =>
    have hstep : scanLoop u ((r :: l).map Except.ok ++ t) acc =
        scanLoop u (l.map Except.ok ++ t) (acc ++ [scanLoadout u r]) := rfl
    rw [hstep, ih]
    simp

theorem scanLoop_ok (u : String) (l : List SelectedRow) :
    scanLoop u (l.map Except.ok) [] = .ok (l.map (scanLoadout u)) := by
  have h := scanLoop_ok_append u l [] []
  simpa [scanLoop] using h

/-- Every outcome of the loop on the rows that `readFault` lets through: the whole
result, its first `n` rows, or the error of the failed scan. -/
theorem scanLoop_deliver (u : String) (all : List SelectedRow) (f : ReadFault) :
    scanLoop u (deliver all f).items [] =
      match f with
      | ReadFault.none => .ok (all.map (scanLoadout u))
      | ReadFault.streamBreaks n => .ok ((all.take n).map (scanLoadout u))
      | ReadFault.scanFails n =>
        if n < all.length then .error scanErr else .ok (all.map (scanLoadout u)) := by
  cases f with
  | none => exact scanLoop_ok u all
  | streamBreaks n => exact scanLoop_ok u (all.take n)
  | scanFails n =>
    simp only [deliver, scanLoop_ok_append, List.nil_append]
    by_cases hn : n < all.length
    · obtain ⟨x, rest, hd⟩ : ∃ x rest, all.drop n = x :: rest := by
        cases hdrop : all.drop n with
        | nil =>
          have := List.drop_eq_nil_iff.mp hdrop
          omega
        | cons x rest => exact ⟨x, rest, rfl⟩
      simp [hd, hn, scanLoop]
    · have hd : all.drop n = [] := List.drop_eq_nil_iff.mpr (by omega)
      have ht : all.take n = all := List.take_of_length_le (by omega)
      simp [hd, hn, ht, scanLoop]

/-- The four outcomes of `GetUserLoadouts`, on the whole result `full` of the statement:
the wrapped error of `db.Query`, the records of `full`, the records of its first `n`
rows when the stream breaks, the error of a failed scan. -/
theorem GetUserLoadouts_cases (db : DB) (u : String) :
    GetUserLoadouts db u =
      if db.reachable then
        match db.readFault with
        | ReadFault.none =>
          .ok ⟨(selectRows db u).map (fun r => scanLoadout u r.selected),
            ((selectRows db u).length : Int)⟩
        | ReadFault.streamBreaks n =>
          .ok ⟨((selectRows db u).take n).map (fun r => scanLoadout u r.selected),
            (((selectRows db u).take n).length : Int)⟩
        | ReadFault.scanFails n =>
          if n < (selectRows db u).length then .error scanErr
          else
            .ok ⟨(selectRows db u).map (fun r => scanLoadout u r.selected),
              ((selectRows db u).length : Int)⟩
      else .error (Error.wrapped "failed to get loadouts: " unreachableErr) := by
  have hl := scanLoop_deliver u ((selectRows db u).map Row.selected) db.readFault
  unfold GetUserLoadouts queryLoadouts
  cases hr : db.reachable with
  | false => simp
  | true =>
    simp only [if_true]
    rw [hl]
    cases hf : db.readFault with
    | none => simp [Function.comp_def]
    | streamBreaks n => simp [Function.comp_def, List.map_take]
    | scanFails n =>
      by_cases hn : n < (selectRows db u).length
      · simp [hn]
      · simp [hn, Function.comp_def]

/-- The records of the whole result of the statement for `u`. -/
theorem GetUserLoadouts_eq (db : DB) (u : String) (h : db.reachable = true)
    (hf : db.readFault = ReadFault.none) :
    GetUserLoadouts db u =
      .ok ⟨(selectRows db u).map (fun r => scanLoadout u r.selected),
        ((selectRows db u).length : Int)⟩ := by
  rw [GetUserLoadouts_cases, h, hf]
  rfl

/-- A successful answer holds the records of the first rows of the whole result, in
order. -/
theorem GetUserLoadouts_ok_prefix (db : DB) (u : String) (resp : GetLoadoutsResponse)
    (h : GetUserLoadouts db u = .ok resp) :
    ∃ rs : List Row, rs <+: selectRows db u ∧
      resp = ⟨rs.map (fun r => scanLoadout u r.selected), (rs.length : Int)⟩ := by
  rw [GetUserLoadouts_cases] at h
  cases hr : db.reachable with
  | false => simp [hr] at h
  | true =>
    simp only [hr, if_true] at h
    cases hf : db.readFault with
    | none =>
      simp only [hf] at h
      exact ⟨selectRows db u, List.prefix_refl _, (Except.ok.inj h).symm⟩
    | streamBreaks n =>
      simp only [hf] at h
      exact ⟨(selectRows db u).take n, List.take_prefix n _, (Except.ok.inj h).symm⟩
    | scanFails n =>
      simp only [hf] at h
      by_cases hn : n < (selectRows db u).length
      · simp [hn] at h
      · simp only [hn, if_false] at h
        exact ⟨selectRows db u, List.prefix_refl _, (Except.ok.inj h).symm⟩

theorem scanLoadout_eq (u : String) (r : SelectedRow) :
    scanLoadout u r =
      ⟨r.id, u, r.agent, r.primary_weapon.getD "", r.sidearm.getD "", r.created⟩ := by
  unfold scanLoadout
  cases hp : r.primary_weapon <;> cases hs : r.sidearm <;> simp

/-- On a sorted list whose creation times are pairwise distinct the order is strict. -/
theorem selectRows_strict (db : DB) (u : String)
    (hd : ((db.loadouts.filter (fun r => decide (r.user_id = u))).map Row.created).Nodup) :
    (selectRows db u).Pairwise (fun a b => b.created < a.created) := by
  have hnd : ((selectRows db u).map Row.created).Nodup :=
    ((selectRows_perm db u).map Row.created).nodup_iff.mpr hd
  have hne : (selectRows db u).Pairwise (fun a b => a.created ≠ b.created) := by
    simpa [List.Nodup, List.pairwise_map] using hnd
  refine ((selectRows_sorted db u).and hne).imp ?_
  rintro a b ⟨hle, hneq⟩
  unfold createdDesc at hle
  omega

/-- Every answer the statement permits is the answer on some physical order: a list
of rows of `u` already in `created DESC` order is returned as it stands. -/
theorem selectRows_of_sorted (db : DB) (u : String)
    (hu : ∀ r ∈ db.loadouts, r.user_id = u) (hs : db.loadouts.Pairwise createdDesc) :
    selectRows db u = db.loadouts := by
  unfold selectRows
  have hf : db.loadouts.filter (fun r => decide (r.user_id = u)) = db.loadouts := by
    rw [List.filter_eq_self]
    intro r hr
    simp [hu r hr]
  rw [hf]
  exact List.Sorted.insertionSort_eq hs

/-! ## Stats -/

/-- C10: `GetStats` never returns an error; `TotalLoadouts` is the count when the
count query succeeds and 0 when it fails, and `TotalAgents`, `TotalWeapons` are the
catalog sizes 4 and 6. -/
theorem GetStats_total (db : DB) :
    GetStats db =
      .ok ⟨4, 6, (match countLoadouts db with | .ok n => n | .error _ => 0), "Jett"⟩ ∧
    countLoadouts db =
      (if db.reachable then .ok (db.loadouts.length : Int) else .error unreachableErr) ∧
    GetStats { db with reachable := false } = .ok ⟨4, 6, 0, "Jett"⟩ ∧
    GetStats { db with reachable := true } = .ok ⟨4, 6, db.loadouts.length, "Jett"⟩ ∧
    (agents.length = 4 ∧ weapons.length = 6) := by
  refine ⟨?_, rfl, rfl, rfl, rfl, rfl⟩
  unfold GetStats
  cases countLoadouts db <;> rfl

/-! ## CreateLoadout -/

/-- C5, as the claim states it, fails: called with an empty primary and an empty
sidearm on an empty store, `CreateLoadout` inserts a row whose `primary_weapon` and
`sidearm` hold the empty string, not `NULL`. -/
theorem CreateLoadout_empty_not_null :
    ∃ r : Row,
      (CreateLoadout (emptyDB 100) "dev-alice" ⟨"jett", "", ""⟩).1.loadouts = [r] ∧
      r.primary_weapon = some "" ∧ r.sidearm = some "" ∧
      r.primary_weapon ≠ none ∧ r.sidearm ≠ none :=
  ⟨⟨1, "dev-alice", "jett", some "", some "", 100⟩, by decide, rfl, rfl, by decide,
    by decide⟩

/-- C5 (amended): on a reachable store `CreateLoadout` appends one row that holds the
primary and sidearm strings of the request as given, so an empty primary (sidearm)
is stored as the empty string. -/
theorem CreateLoadout_stores_strings (db : DB) (u : String) (req : CreateLoadoutRequest)
    (h : db.reachable = true) :
    ∃ r : Row,
      (CreateLoadout db u req).1.loadouts = db.loadouts ++ [r] ∧
      r.primary_weapon = some req.Primary ∧ r.sidearm = some req.Sidearm ∧
      r.user_id = u ∧ r.agent = req.Agent ∧ r.id = db.nextId ∧ r.created = db.now :=
  ⟨⟨db.nextId, u, req.Agent, some req.Primary, some req.Sidearm, db.now⟩,
    by simp [CreateLoadout, insertLoadout, h], rfl, rfl, rfl, rfl, rfl, rfl⟩

/-- Witness of C5 (amended): an empty primary on the empty store. -/
theorem CreateLoadout_stores_strings_witness :
    (emptyDB 100).reachable = true ∧
    ∃ r : Row,
      (CreateLoadout (emptyDB 100) "dev-alice" ⟨"jett", "", "classic"⟩).1.loadouts =
        (emptyDB 100).loadouts ++ [r] ∧
      r.primary_weapon = some "" ∧ r.sidearm = some "classic" ∧
      r.user_id = "dev-alice" ∧ r.agent = "jett" ∧ r.id = (emptyDB 100).nextId ∧
      r.created = (emptyDB 100).now :=
  ⟨rfl, CreateLoadout_stores_strings (emptyDB 100) "dev-alice" ⟨"jett", "", "classic"⟩ rfl⟩

/-- C7, as the claim states it, fails: called with an empty agent on an empty
reachable store, `CreateLoadout` succeeds with id 1 and inserts a row whose agent is
the empty string. -/
theorem CreateLoadout_empty_agent_succeeds :
    CreateLoadout (emptyDB 100) "dev-alice" ⟨"", "vandal", "classic"⟩ =
      (⟨true, [⟨1, "dev-alice", "", some "vandal", some "classic", 100⟩], 2, 100,
          ReadFault.none⟩,
        .ok ⟨1, "Loadout saved successfully"⟩) := by
  decide

/-- C7 (amended): `CreateLoadout` does not inspect the agent.  On a reachable store
it succeeds for every request, returns the store-assigned id and inserts exactly one
row carrying the agent of the request; on an unreachable store it fails with the
wrapped store error and inserts no row. -/
theorem CreateLoadout_outcome (db : DB) (u : String) (req : CreateLoadoutRequest) :
    CreateLoadout db u req =
      (if db.reachable then
        ({ db with
            loadouts := db.loadouts ++
              [⟨db.nextId, u, req.Agent, some req.Primary, some req.Sidearm, db.now⟩],
            nextId := db.nextId + 1 },
          .ok ⟨db.nextId, "Loadout saved successfully"⟩)
      else
        (db, .error (Error.wrapped "failed to create loadout: " unreachableErr))) := by
  cases h : db.reachable <;> simp [CreateLoadout, insertLoadout, h]

/-! ## GetUserLoadouts -/

/-- C6, as the claim states it, fails: two stores whose single rows differ only in
that `primary_weapon` is `NULL` in one and the empty string in the other give the
same `Loadout`, with `Primary` the empty string. -/
theorem GetUserLoadouts_null_eq_empty :
    rowNull ≠ rowEmpty ∧ { rowNull with primary_weapon := some "" } = rowEmpty ∧
    GetUserLoadouts ⟨true, [rowNull], 2, 100, ReadFault.none⟩ "dev-alice" =
      .ok ⟨[⟨1, "dev-alice", "jett", "", "classic", 100⟩], 1⟩ ∧
    GetUserLoadouts ⟨true, [rowEmpty], 2, 100, ReadFault.none⟩ "dev-alice" =
      .ok ⟨[⟨1, "dev-alice", "jett", "", "classic", 100⟩], 1⟩ := by
  decide

/-- C6 (amended): the `Loadout` built from a selected row exposes a `NULL`
`primary_weapon` (`sidearm`) as the empty string and a non-`NULL` one unchanged; the
other fields are the scanned columns and the caller as `UserID`. -/
theorem scanLoadout_null_as_empty (u : String) (r : SelectedRow) :
    scanLoadout u r =
      ⟨r.id, u, r.agent, r.primary_weapon.getD "", r.sidearm.getD "", r.created⟩ ∧
    (scanLoadout u { r with primary_weapon := none }).Primary = "" ∧
    (scanLoadout u { r with sidearm := none }).Sidearm = "" ∧
    scanLoadout u { r with primary_weapon := none } =
      scanLoadout u { r with primary_weapon := some "" } ∧
    scanLoadout u { r with sidearm := none } =
      scanLoadout u { r with sidearm := some "" } := by
  refine ⟨scanLoadout_eq u r, ?_, ?_, ?_, ?_⟩ <;> simp [scanLoadout_eq]

/-- Whatever `GetUserLoadouts` returns for `u` is built, row by row, from stored rows
whose `user_id` is `u`: every record carries `UserID = u`, no row of another user
appears, no row appears more often than it is stored, and ids stay distinct when the
primary key is unique.  When the rows are read without a fault, every row of `u`
appears. -/
theorem GetUserLoadouts_only_own_rows (db : DB) (u : String) :
    (∀ resp, GetUserLoadouts db u = .ok resp →
      ∃ rs : List Row,
        resp = ⟨rs.map (fun r => scanLoadout u r.selected), (rs.length : Int)⟩ ∧
        (∀ r ∈ rs, r ∈ db.loadouts ∧ r.user_id = u) ∧
        (∀ l ∈ resp.Loadouts, l.UserID = u) ∧
        (∀ r, r.user_id ≠ u → r ∉ rs) ∧
        (∀ r, rs.count r ≤ db.loadouts.count r) ∧
        ((db.loadouts.map Row.id).Nodup → (resp.Loadouts.map Loadout.ID).Nodup)) ∧
    (db.reachable = true → db.readFault = ReadFault.none →
      ∃ rs : List Row,
        GetUserLoadouts db u =
          .ok ⟨rs.map (fun r => scanLoadout u r.selected), (rs.length : Int)⟩ ∧
        rs.Perm (db.loadouts.filter (fun r => decide (r.user_id = u))) ∧
        (∀ r, r.user_id = u → rs.count r = db.loadouts.count r)) := by
  have hperm := selectRows_perm db u
  constructor
  · intro resp hresp
    obtain ⟨rs, hpre, rfl⟩ := GetUserLoadouts_ok_prefix db u resp hresp
    have hsub : rs.Sublist (selectRows db u) := hpre.sublist
    have hmem : ∀ r ∈ rs, r ∈ db.loadouts ∧ r.user_id = u := by
      intro r hr
      have := hperm.subset (hsub.subset hr)
      simpa [List.mem_filter] using this
    refine ⟨rs, rfl, hmem, ?_, ?_, ?_, ?_⟩
    · intro l hl
      obtain ⟨r, _, rfl⟩ := List.mem_map.mp hl
      simp [scanLoadout_eq]
    · intro r hne hr
      exact hne (hmem r hr).2
    · intro r
      calc rs.count r ≤ (selectRows db u).count r := hsub.count_le r
        _ = (db.loadouts.filter (fun r => decide (r.user_id = u))).count r := hperm.count_eq r
        _ ≤ db.loadouts.count r := (List.filter_sublist _).count_le r
    · intro hnd
      have hids : (rs.map (fun r => scanLoadout u r.selected)).map Loadout.ID =
          rs.map Row.id := by
        simp [scanLoadout_eq, Row.selected, Function.comp_def]
      show ((rs.map (fun r => scanLoadout u r.selected)).map Loadout.ID).Nodup
      rw [hids]
      have hfil : ((db.loadouts.filter (fun r => decide (r.user_id = u))).map Row.id).Nodup :=
        hnd.sublist ((List.filter_sublist _).map Row.id)
      have hsel : ((selectRows db u).map Row.id).Nodup :=
        ((hperm.map Row.id).nodup_iff).mpr hfil
      exact hsel.sublist (hsub.map Row.id)
  · intro h hf
    refine ⟨selectRows db u, GetUserLoadouts_eq db u h hf, hperm, ?_⟩
    intro r hr
    rw [hperm.count_eq, List.count_filter]
    simp [hr]

/-- A statement whose failure shows only in `rows.Err()` is answered with an empty
list and no error. -/
theorem GetUserLoadouts_deferred_error :
    GetUserLoadouts { twoUserDB with readFault := ReadFault.streamBreaks 0 } "dev-alice" =
      .ok ⟨[], 0⟩ := by
  decide

/-- C8 fails on the code: `GetUserLoadouts` never reads `rows.Err()`.  On a store that
holds two rows of `dev-alice`, read over a stream that breaks after the first row,
it returns one record and no error, so the stored row with id 1 does not appear.  The
same store read without a fault gives both records; an error of `db.Query` and an
error of `rows.Scan` are both returned as errors. -/
theorem GetUserLoadouts_truncated_success :
    brokenStreamDB.loadouts = twoUserDB.loadouts ∧
    brokenStreamDB.loadouts.filter (fun r => decide (r.user_id = "dev-alice")) =
      [⟨1, "dev-alice", "jett", some "vandal", some "classic", 100⟩,
       ⟨3, "dev-alice", "sage", none, some "sheriff", 200⟩] ∧
    queryLoadouts brokenStreamDB "dev-alice" =
      .ok ⟨[.ok ⟨3, "sage", none, some "sheriff", 200⟩], some streamErr⟩ ∧
    GetUserLoadouts brokenStreamDB "dev-alice" =
      .ok ⟨[⟨3, "dev-alice", "sage", "", "sheriff", 200⟩], 1⟩ ∧
    GetUserLoadouts twoUserDB "dev-alice" =
      .ok ⟨[⟨3, "dev-alice", "sage", "", "sheriff", 200⟩,
            ⟨1, "dev-alice", "jett", "vandal", "classic", 100⟩], 2⟩ ∧
    GetUserLoadouts scanFaultDB "dev-alice" = .error scanErr ∧
    GetUserLoadouts { twoUserDB with reachable := false } "dev-alice" =
      .error (Error.wrapped "failed to get loadouts: " unreachableErr) := by
  decide

/-- C9, as the claim states it, fails: after two creations with the same timestamp
the two records come back with equal creation time in ascending id order, and the
same set of rows in another physical order comes back in the other order. -/
theorem GetUserLoadouts_tie_order :
    GetUserLoadouts tieDB "dev-alice" =
      .ok ⟨[⟨1, "dev-alice", "jett", "vandal", "classic", 100⟩,
            ⟨2, "dev-alice", "sova", "phantom", "sheriff", 100⟩], 2⟩ ∧
    ¬ List.Pairwise createdDescIdDesc
      [(⟨1, "dev-alice", "jett", "vandal", "classic", 100⟩ : Loadout),
        ⟨2, "dev-alice", "sova", "phantom", "sheriff", 100⟩] ∧
    tieDBSwapped.loadouts.Perm tieDB.loadouts ∧
    GetUserLoadouts tieDBSwapped "dev-alice" =
      .ok ⟨[⟨2, "dev-alice", "sova", "phantom", "sheriff", 100⟩,
            ⟨1, "dev-alice", "jett", "vandal", "classic", 100⟩], 2⟩ := by
  refine ⟨by decide, by decide, ?_, by decide⟩
  exact List.reverse_perm _

/-- C9 (amended): every sequence `GetUserLoadouts` returns is ordered by creation time
descending.  When the rows are read without a fault the call succeeds, and if the
creation times of the rows of the user are pairwise distinct, the result is the same
for every store that holds the same rows and is read without a fault. -/
theorem GetUserLoadouts_created_desc (db : DB) (u : String) :
    (∀ resp, GetUserLoadouts db u = .ok resp →
      resp.Loadouts.Pairwise (fun a b => b.Created ≤ a.Created)) ∧
    (db.reachable = true → db.readFault = ReadFault.none →
      ∃ out : List Loadout,
        GetUserLoadouts db u = .ok ⟨out, (out.length : Int)⟩ ∧
        (((db.loadouts.filter (fun r => decide (r.user_id = u))).map Row.created).Nodup →
          out.Pairwise createdDescIdDesc ∧
          ∀ db2 : DB, db2.reachable = true → db2.readFault = ReadFault.none →
            db2.loadouts.Perm db.loadouts →
            GetUserLoadouts db2 u = GetUserLoadouts db u)) := by
  constructor
  · intro resp hresp
    obtain ⟨rs, hpre, rfl⟩ := GetUserLoadouts_ok_prefix db u resp hresp
    show (rs.map (fun r => scanLoadout u r.selected)).Pairwise _
    rw [List.pairwise_map]
    refine ((selectRows_sorted db u).sublist hpre.sublist).imp ?_
    intro a b hab
    simpa [scanLoadout_eq, Row.selected] using hab
  · intro h hf
    refine ⟨(selectRows db u).map (fun r => scanLoadout u r.selected), ?_, ?_⟩
    · rw [GetUserLoadouts_eq db u h hf, List.length_map]
    · intro hd
      constructor
      · rw [List.pairwise_map]
        refine (selectRows_strict db u hd).imp ?_
        intro a b hab
        left
        simpa [scanLoadout_eq, Row.selected] using hab
      · intro db2 h2 hf2 hp
        have hpf : (db2.loadouts.filter (fun r => decide (r.user_id = u))).Perm
            (db.loadouts.filter (fun r => decide (r.user_id = u))) := hp.filter _
        have hd2 : ((db2.loadouts.filter (fun r => decide (r.user_id = u))).map
            Row.created).Nodup := ((hpf.map Row.created).nodup_iff).mpr hd
        have hperm : (selectRows db2 u).Perm (selectRows db u) :=
          ((selectRows_perm db2 u).trans hpf).trans (selectRows_perm db u).symm
        haveI : IsAntisymm Row (fun a b => b.created < a.created) :=
          ⟨fun a b h1 h2 => absurd h1 (Nat.lt_asymm h2)⟩
        have heq : selectRows db2 u = selectRows db u :=
          List.eq_of_perm_of_sorted hperm (selectRows_strict db2 u hd2)
            (selectRows_strict db u hd)
        rw [GetUserLoadouts_eq db2 u h2 hf2, GetUserLoadouts_eq db u h hf, heq]

/-- Witness of C9 (amended): the rows of `dev-alice` in `twoUserDB`, read without a
fault, and the truncated answer on `brokenStreamDB`. -/
theorem GetUserLoadouts_created_desc_witness :
    twoUserDB.reachable = true ∧ twoUserDB.readFault = ReadFault.none ∧
    (∃ out : List Loadout,
      GetUserLoadouts twoUserDB "dev-alice" = .ok ⟨out, (out.length : Int)⟩ ∧
      (((twoUserDB.loadouts.filter (fun r => decide (r.user_id = "dev-alice"))).map
          Row.created).Nodup →
        out.Pairwise createdDescIdDesc ∧
        ∀ db2 : DB, db2.reachable = true → db2.readFault = ReadFault.none →
          db2.loadouts.Perm twoUserDB.loadouts →
          GetUserLoadouts db2 "dev-alice" = GetUserLoadouts twoUserDB "dev-alice")) ∧
    List.Pairwise (fun a b : Loadout => b.Created ≤ a.Created)
      [⟨3, "dev-alice", "sage", "", "sheriff", 200⟩] :=
  ⟨rfl, rfl, (GetUserLoadouts_created_desc twoUserDB "dev-alice").2 rfl rfl,
    (GetUserLoadouts_created_desc brokenStreamDB "dev-alice").1
      ⟨[⟨3, "dev-alice", "sage", "", "sheriff", 200⟩], 1⟩ (by decide)⟩

end Valorant
